import Mathlib

/-!
Shallow embedding of the Google-Reader-compatible MCP client in src/main.py:
the authenticated request lifecycle (login, token exchange, per-request
decoration, single retry on the bad-token signal, response interpretation)
and the exposed operations the claims mention.

HTTP transport is modelled as a stream of transport results consumed in
order; each outbound request is recorded in a trace so that call counts and
request decoration are observable.  Python stdlib helpers the source merely
delegates to (html.unescape, json.loads, ET.fromstring) are fields of a
Stdlib record, since the client never inspects their output.
-/

namespace RssMcp

/-- Python string value or None stored in a dict slot. -/
inductive PVal where
  | s (v : String)
  | i (v : Int)
  | none
deriving DecidableEq, Repr

/-- Render an optional string the way a Python f-string renders it
(None prints as the text None). -/
def pyStr : Option String → String
  | Option.some s => s
  | Option.none => "None"

def optPVal : Option String → PVal
  | Option.some s => PVal.s s
  | Option.none => PVal.none

/-- Python truthiness of an optional string: None and the empty string are
falsy, everything else truthy. -/
def isTruthyStr (o : Option String) : Bool :=
  o.getD "" != ""

/-- Python truthiness of an optional int: None and 0 are falsy. -/
def pyTruthyOptInt : Option Int → Bool
  | Option.none => false
  | Option.some v => v != 0

/-- Characters stripped by Python str.strip() with no argument
(ASCII whitespace; exotic unicode spaces are out of scope here). -/
def isPySpace (c : Char) : Bool :=
  c == ' ' || c == '\t' || c == '\n' || c == '\r' || c == '\x0b' || c == '\x0c'

/-- Python str.strip(). -/
def pyStrip (s : String) : String :=
  String.mk (((s.toList.dropWhile isPySpace).reverse.dropWhile isPySpace).reverse)

/-- Python str.rstrip with a single slash argument. -/
def pyRstripSlash (s : String) : String :=
  String.mk ((s.toList.reverse.dropWhile (· == '/')).reverse)

/-- Does a character list start with the given pattern. -/
def listStartsWith : List Char → List Char → Bool
  | [], _ => true
  | _ :: _, [] => false
  | a :: as, b :: bs => a == b && listStartsWith as bs

/-- Does a character list contain the given pattern as a contiguous run. -/
def charsHasSub (sub : List Char) : List Char → Bool
  | [] => sub.isEmpty
  | c :: rest => listStartsWith sub (c :: rest) || charsHasSub sub rest

/-- Python str.startswith. -/
def strStartsWith (pre s : String) : Bool :=
  listStartsWith pre.toList s.toList

/-- Split a character list on a single separator character, keeping empty
segments, as Python split does for a one-character separator. -/
def splitOnChar (sep : Char) : List Char → List (List Char)
  | [] => [[]]
  | c :: rest =>
    if c == sep then [] :: splitOnChar sep rest
    else
      match splitOnChar sep rest with
      | [] => [[c]]
      | seg :: segs => (c :: seg) :: segs

/-- Python str.split(sep) for a one-character separator. -/
def pySplit (sep : Char) (s : String) : List String :=
  (splitOnChar sep s.toList).map String.mk

/-- Python substring membership test (sub in s) for a nonempty sub. -/
def pyIn (sub s : String) : Bool :=
  charsHasSub sub.toList s.toList

/-- Python dict assignment d[k] = v: update an existing key in place,
otherwise append at the end (insertion order preserved). -/
def dictSet {α : Type} (d : List (String × α)) (k : String) (v : α) :
    List (String × α) :=
  if d.any (fun p => p.1 == k) then
    d.map (fun p => if p.1 == k then (k, v) else p)
  else d ++ [(k, v)]

/-- Python dict.setdefault(k, v). -/
def dictSetdefault {α : Type} (d : List (String × α)) (k : String) (v : α) :
    List (String × α) :=
  if d.any (fun p => p.1 == k) then d else d ++ [(k, v)]

/-- Python dict.get(k) returning None when absent. -/
def dictGet? {α : Type} (d : List (String × α)) (k : String) : Option α :=
  (d.find? (fun p => p.1 == k)).map (fun p => p.2)

def dictHas {α : Type} (d : List (String × α)) (k : String) : Bool :=
  d.any (fun p => p.1 == k)

/-- Underscore-grouped digit run as accepted by Python int(str): nonempty,
no leading, trailing or doubled underscore, at least the digits. -/
def noDoubleUS : List Char → Bool
  | '_' :: '_' :: _ => false
  | _ :: rest => noDoubleUS rest
  | [] => true

def validUnderscoreDigits (cs : List Char) : Bool :=
  !cs.isEmpty
    && cs.all (fun c => c.isDigit || c == '_')
    && cs.head? != Option.some '_'
    && cs.getLast? != Option.some '_'
    && noDoubleUS cs

def digitsToNat (cs : List Char) : Nat :=
  cs.foldl (fun a c => a * 10 + (c.toNat - '0'.toNat)) 0

/-- Python int(str): strip whitespace, optional single sign, digits with
optional underscore grouping; None on anything else. -/
def pyIntCore (s : String) : Option Int :=
  let cs := ((s.toList.dropWhile isPySpace).reverse.dropWhile isPySpace).reverse
  let signed : Int × List Char :=
    match cs with
    | '+' :: r => (1, r)
    | '-' :: r => (-1, r)
    | r => (1, r)
  if validUnderscoreDigits signed.2 then
    Option.some (signed.1 * (digitsToNat (signed.2.filter Char.isDigit) : Int))
  else Option.none

/-- A tool argument typed Union[int, str] in the source. -/
inductive IntOrStr where
  | i (v : Int)
  | s (v : String)
deriving DecidableEq, Repr

/-- Python int(x) on an int-or-string argument. -/
def pyInt : IntOrStr → Option Int
  | IntOrStr.i n => Option.some n
  | IntOrStr.s str => pyIntCore str

/-- Conversion the tools apply to an Optional[Union[int, str]] argument:
skipped when the argument is None, int(x) otherwise. -/
def convOpt : Option IntOrStr → Option (Option Int)
  | Option.none => Option.some Option.none
  | Option.some v => (pyInt v).map Option.some

/-- Python str(bool).lower(). -/
def pyBoolStr (b : Bool) : String :=
  if b then "true" else "false"

/-- An HTTP response as the client observes it: whether raise_for_status
passes, the body text, and the response headers. -/
structure HttpResponse where
  ok : Bool
  text : String
  headers : List (String × String)
deriving DecidableEq, Repr

/-- Outcome of one transport exchange: either a response (possibly with an
error status) or a RequestException with no response attached
(connection or DNS failure, timeout). -/
inductive TransportResult where
  | noResponse
  | resp (r : HttpResponse)
deriving DecidableEq, Repr

/-- response.headers.get(k) with no default (None when absent).  The
requests library exposes response headers case-insensitively; the model
always addresses them by the one canonical name the source uses. -/
def headersGet? (hs : List (String × String)) (k : String) : Option String :=
  (hs.find? (fun p => p.1 == k)).map (fun p => p.2)

/-- response.headers.get(k, d). -/
def headersGetD (hs : List (String × String)) (k d : String) : String :=
  (headersGet? hs k).getD d

/-- One outbound request exactly as handed to requests.request, after the
client added its decoration. -/
structure SentRequest where
  method : String
  url : String
  headers : List (String × String)
  cookies : List (String × PVal)
  params : List (String × PVal)
  data : List (String × PVal)
deriving DecidableEq, Repr

/-- The mutable fields of GoogleReaderClient (None at construction). -/
structure ClientState where
  sid : Option String
  auth : Option String
  token : Option String
deriving DecidableEq, Repr

def freshState : ClientState :=
  ⟨Option.none, Option.none, Option.none⟩

/-- The three required environment values (their presence is checked at
startup by the constructor; we model a running client, so they are given). -/
structure Env where
  email : String
  password : String
  baseUrl : String
deriving DecidableEq, Repr

/-- Client state plus the remaining transport stream and the trace of
requests sent so far. -/
structure Machine where
  st : ClientState
  world : List TransportResult
  sent : List SentRequest
deriving DecidableEq, Repr

/-- Execute one HTTP exchange: record the request, consume the next
transport result (an exhausted stream behaves as a connection failure). -/
def httpCall (m : Machine) (req : SentRequest) : TransportResult × Machine :=
  match m.world with
  | [] => (TransportResult.noResponse, { m with sent := m.sent ++ [req] })
  | t :: rest => (t, { m with world := rest, sent := m.sent ++ [req] })

/-- Opaque wrapper for a decoded JSON value: the client returns parsed JSON
without ever inspecting it, so its structure is irrelevant here. -/
structure JsonVal where
  raw : String
deriving DecidableEq, Repr

/-- Opaque wrapper for a parsed XML tree, same reasoning as JsonVal. -/
structure XmlTree where
  raw : String
deriving DecidableEq, Repr

/-- The Python stdlib functions the client delegates to without inspecting
their results: html.unescape, json.loads, ET.fromstring. -/
structure Stdlib where
  unescape : String → String
  jsonLoads : String → Option JsonVal
  xmlFromString : String → Option XmlTree

/-- What make_request returns on success: a decoded JSON value, an XML
tree, or the unescaped raw text. -/
inductive Decoded where
  | json (v : JsonVal)
  | xml (t : XmlTree)
  | text (s : String)
deriving DecidableEq, Repr

/-- The exceptions the client can raise, keeping what each one observably
carries: the wrapped request failure records the endpoint it names, while
an exception escaping the retry resend is the raw requests error and names
nothing. -/
inductive PyErr where
  | loginHttp
  | loginParse (body : String)
  | tokenHttp
  | valueError (msg : String)
  | requestError (endpoint : Option String)
  | rawHttp (r : HttpResponse)
  | rawTransport
deriving DecidableEq, Repr

/-- Lines of the stripped login body (response.text.strip().split by
newline). -/
def loginLines (body : String) : List String :=
  pySplit '\n' (pyStrip body)

/-- First line with the given start, aka the [0] of the filtering list
comprehension in _login (IndexError when there is none). -/
def firstStarting (pre : String) (ls : List String) : Option String :=
  (ls.filter (fun l => strStartsWith pre l)).head?

/-- line.split by the equals sign, element [1]: the segment between the
first and second equals sign (total since every selected line contains
one). -/
def eqField1 (line : String) : String :=
  (pySplit '=' line).getD 1 ""

/-- Pure view of the SID extraction _login performs on a body. -/
def loginSidOf (body : String) : Option String :=
  (firstStarting "SID=" (loginLines body)).map eqField1

/-- Pure view of the Auth extraction _login performs on a body. -/
def loginAuthOf (body : String) : Option String :=
  (firstStarting "Auth=" (loginLines body)).map eqField1

def loginReq (env : Env) : SentRequest :=
  ⟨"POST", env.baseUrl ++ "/accounts/ClientLogin", [], [], [],
    [("Email", PVal.s env.email), ("Passwd", PVal.s env.password)]⟩

/-- GoogleReaderClient._login. The SID field is assigned before the Auth
line is looked up, exactly as in the source. -/
def loginRun (env : Env) (m : Machine) : Except PyErr Unit × Machine :=
  let (t, m1) := httpCall m (loginReq env)
  match t with
  | TransportResult.noResponse => (Except.error PyErr.loginHttp, m1)
  | TransportResult.resp r =>
    if r.ok then
      match firstStarting "SID=" (loginLines r.text) with
      | Option.none => (Except.error (PyErr.loginParse r.text), m1)
      | Option.some sidLine =>
        let m2 := { m1 with st := { m1.st with sid := Option.some (eqField1 sidLine) } }
        match firstStarting "Auth=" (loginLines r.text) with
        | Option.none => (Except.error (PyErr.loginParse r.text), m2)
        | Option.some authLine =>
          (Except.ok (),
            { m2 with st := { m2.st with auth := Option.some (eqField1 authLine) } })
    else (Except.error PyErr.loginHttp, m1)

def tokenReq (env : Env) (auth : Option String) : SentRequest :=
  ⟨"GET", env.baseUrl ++ "/reader/api/0/token",
    [("Authorization", "GoogleLogin auth=" ++ pyStr auth)], [], [], []⟩

/-- GoogleReaderClient._get_token: log in first when the auth secret is
falsy, then fetch the token endpoint and cache the stripped body. -/
def getTokenRun (env : Env) (m : Machine) : Except PyErr Unit × Machine :=
  let step1 : Except PyErr Unit × Machine :=
    if isTruthyStr m.st.auth then (Except.ok (), m) else loginRun env m
  match step1 with
  | (Except.error e, m1) => (Except.error e, m1)
  | (Except.ok _, m1) =>
    let (t, m2) := httpCall m1 (tokenReq env m1.st.auth)
    match t with
    | TransportResult.noResponse => (Except.error PyErr.tokenHttp, m2)
    | TransportResult.resp r =>
      if r.ok then
        (Except.ok (), { m2 with st := { m2.st with token := Option.some (pyStrip r.text) } })
      else (Except.error PyErr.tokenHttp, m2)

/-- GoogleReaderClient.ensure_authenticated. -/
def ensureAuthRun (env : Env) (m : Machine) : Except PyErr Unit × Machine :=
  if isTruthyStr m.st.token then (Except.ok (), m) else getTokenRun env m

/-- URL resolution in make_request: a truthy full_url wins, else a truthy
endpoint is composed on the rstripped base (with the api/0 prefix or the
alternate reader prefix), else ValueError. -/
def resolveUrl (env : Env) (endpoint : Option String) (useApi0 : Bool)
    (fullUrl : Option String) : Except PyErr String :=
  if isTruthyStr fullUrl then Except.ok (fullUrl.getD "")
  else if isTruthyStr endpoint then
    let base := pyRstripSlash env.baseUrl
    if useApi0 then Except.ok (base ++ "/reader/api/0/" ++ endpoint.getD "")
    else Except.ok (base ++ "/reader/" ++ endpoint.getD "")
  else Except.error (PyErr.valueError "Either 'endpoint' or 'full_url' must be provided.")

/-- Header decoration of make_request: Authorization is assigned over any
caller value. -/
def decorateHeaders (st : ClientState) (hs : List (String × String)) :
    List (String × String) :=
  dictSet hs "Authorization" ("GoogleLogin auth=" ++ pyStr st.auth)

/-- Cookie decoration of make_request: SID is assigned over any caller
value. -/
def decorateCookies (st : ClientState) (cs : List (String × PVal)) :
    List (String × PVal) :=
  dictSet cs "SID" (optPVal st.sid)

/-- Parameter decoration of make_request: T is assigned, client only
setdefault-ed. -/
def decorateParams (st : ClientState) (ps : List (String × PVal)) :
    List (String × PVal) :=
  dictSetdefault (dictSet ps "T" (optPVal st.token)) "client" (PVal.s "fastmcp-server")

/-- The caller-supplied kwargs of make_request (absent keys default to
empty dicts, as kwargs.get does). -/
structure CallArgs where
  headers : List (String × String) := []
  cookies : List (String × PVal) := []
  params : List (String × PVal) := []
  data : List (String × PVal) := []
deriving DecidableEq, Repr

/-- Response interpretation shared by both attempts in make_request:
unescape, then dispatch on the declared content type with raw-text
fallback on decode failure. -/
def interpretResponse (std : Stdlib) (r : HttpResponse) : Decoded :=
  let unescaped := std.unescape r.text
  let contentType := headersGetD r.headers "Content-Type" ""
  if pyIn "json" contentType then
    match std.jsonLoads unescaped with
    | Option.some v => Decoded.json v
    | Option.none => Decoded.text unescaped
  else if pyIn "xml" contentType then
    match std.xmlFromString unescaped with
    | Option.some t => Decoded.xml t
    | Option.none => Decoded.text unescaped
  else Decoded.text unescaped

/-- GoogleReaderClient.make_request.  On an error status whose response
carries X-Reader-Google-Bad-Token true, the token is refreshed via
_get_token, only the T parameter is replaced, and the request is resent
once; a failure of that resend escapes as the raw requests error (the
final wrap into the endpoint-naming exception happens only on the
no-retry path, as in the source). -/
def makeRequest (std : Stdlib) (env : Env) (method : String)
    (endpoint : Option String) (useApi0 : Bool) (fullUrl : Option String)
    (args : CallArgs) (m : Machine) : Except PyErr Decoded × Machine :=
  match ensureAuthRun env m with
  | (Except.error e, m1) => (Except.error e, m1)
  | (Except.ok _, m1) =>
    match resolveUrl env endpoint useApi0 fullUrl with
    | Except.error e => (Except.error e, m1)
    | Except.ok url =>
      let req : SentRequest :=
        ⟨method, url, decorateHeaders m1.st args.headers,
          decorateCookies m1.st args.cookies,
          decorateParams m1.st args.params, args.data⟩
      let (t, m2) := httpCall m1 req
      match t with
      | TransportResult.noResponse => (Except.error (PyErr.requestError endpoint), m2)
      | TransportResult.resp r =>
        if r.ok then (Except.ok (interpretResponse std r), m2)
        else if headersGet? r.headers "X-Reader-Google-Bad-Token" == Option.some "true" then
          match getTokenRun env m2 with
          | (Except.error e, m3) => (Except.error e, m3)
          | (Except.ok _, m3) =>
            let req2 : SentRequest :=
              { req with params := dictSet req.params "T" (optPVal m3.st.token) }
            let (t2, m4) := httpCall m3 req2
            match t2 with
            | TransportResult.noResponse => (Except.error PyErr.rawTransport, m4)
            | TransportResult.resp r2 =>
              if r2.ok then (Except.ok (interpretResponse std r2), m4)
              else (Except.error (PyErr.rawHttp r2), m4)
        else (Except.error (PyErr.requestError endpoint), m2)

/-- Tool mark_feed_as_read: int-converts the timestamp before anything
else, ValueError on failure. -/
def mark_feed_as_read (std : Stdlib) (env : Env) (feed_url : String)
    (timestamp : IntOrStr) (m : Machine) : Except PyErr Decoded × Machine :=
  match pyInt timestamp with
  | Option.none => (Except.error (PyErr.valueError "Timestamp must be a valid integer."), m)
  | Option.some ts =>
    makeRequest std env "POST" (Option.some "mark-all-as-read") true Option.none
      { data := [("s", PVal.s ("feed/" ++ feed_url)), ("ts", PVal.i ts)] } m

/-- Tool mark_folder_as_read. -/
def mark_folder_as_read (std : Stdlib) (env : Env) (folder_name : String)
    (timestamp : IntOrStr) (m : Machine) : Except PyErr Decoded × Machine :=
  match pyInt timestamp with
  | Option.none => (Except.error (PyErr.valueError "Timestamp must be a valid integer."), m)
  | Option.some ts =>
    makeRequest std env "POST" (Option.some "mark-all-as-read") true Option.none
      { data := [("t", PVal.s folder_name), ("ts", PVal.i ts)] } m

/-- Tool get_all_entries: converts count and the two optional time
windows first (one shared ValueError), then builds params, adding the
optional fields only when truthy. -/
def get_all_entries (std : Stdlib) (env : Env) (count : IntOrStr)
    (sort_order : Option String) (newer_than older_than : Option IntOrStr)
    (exclude_target continuation : Option String) (output_format : String)
    (m : Machine) : Except PyErr Decoded × Machine :=
  match pyInt count, convOpt newer_than, convOpt older_than with
  | Option.some c, Option.some nt, Option.some ot =>
    let p : List (String × PVal) := [("output", PVal.s output_format), ("n", PVal.i c)]
    let p := if isTruthyStr sort_order then dictSet p "r" (PVal.s (sort_order.getD "")) else p
    let p := if pyTruthyOptInt nt then dictSet p "t" (PVal.i (nt.getD 0)) else p
    let p := if pyTruthyOptInt ot then dictSet p "ot" (PVal.i (ot.getD 0)) else p
    let p := if isTruthyStr exclude_target then dictSet p "xt" (PVal.s (exclude_target.getD "")) else p
    let p := if isTruthyStr continuation then dictSet p "c" (PVal.s (continuation.getD "")) else p
    makeRequest std env "GET"
      (Option.some "stream/contents/user/-/state/com.google/reading-list") true
      Option.none { params := p } m
  | _, _, _ =>
    (Except.error (PyErr.valueError "count, newer_than, and older_than must be valid integers."), m)

/-- Tool get_starred_articles. -/
def get_starred_articles (std : Stdlib) (env : Env) (count : IntOrStr)
    (output_format : String) (m : Machine) : Except PyErr Decoded × Machine :=
  match pyInt count with
  | Option.none => (Except.error (PyErr.valueError "count must be a valid integer."), m)
  | Option.some c =>
    makeRequest std env "GET"
      (Option.some "stream/contents/user/-/state/com.google/starred") true
      Option.none { params := [("n", PVal.i c), ("output", PVal.s output_format)] } m

/-- Tool parse_feed_url: builds the full URL manually and passes
endpoint as None. -/
def parse_feed_url (std : Stdlib) (env : Env) (feed_url : String)
    (count : IntOrStr) (exclude_target : Option String) (m : Machine) :
    Except PyErr Decoded × Machine :=
  match pyInt count with
  | Option.none => (Except.error (PyErr.valueError "count must be a valid integer."), m)
  | Option.some c =>
    let base := pyRstripSlash env.baseUrl
    let full := base ++ "/reader/api/0/atom/feed/" ++ feed_url
    let p : List (String × PVal) := [("n", PVal.i c)]
    let p := if isTruthyStr exclude_target then dictSet p "xt" (PVal.s (exclude_target.getD "")) else p
    makeRequest std env "GET" Option.none true (Option.some full) { params := p } m

/-- Tool freshapi_get_stream_item_ids. -/
def freshapi_get_stream_item_ids (std : Stdlib) (env : Env) (stream_id : String)
    (count : IntOrStr) (sort_order continuation exclude_target : Option String)
    (start_time stop_time : Option IntOrStr) (filter_target : Option String)
    (m : Machine) : Except PyErr Decoded × Machine :=
  match pyInt count, convOpt start_time, convOpt stop_time with
  | Option.some c, Option.some st0, Option.some sp0 =>
    let p : List (String × PVal) := [("s", PVal.s stream_id), ("n", PVal.i c)]
    let p := if isTruthyStr sort_order then dictSet p "r" (PVal.s (sort_order.getD "")) else p
    let p := if isTruthyStr continuation then dictSet p "c" (PVal.s (continuation.getD "")) else p
    let p := if isTruthyStr exclude_target then dictSet p "xt" (PVal.s (exclude_target.getD "")) else p
    let p := if pyTruthyOptInt st0 then dictSet p "ot" (PVal.i (st0.getD 0)) else p
    let p := if pyTruthyOptInt sp0 then dictSet p "nt" (PVal.i (sp0.getD 0)) else p
    let p := if isTruthyStr filter_target then dictSet p "it" (PVal.s (filter_target.getD "")) else p
    makeRequest std env "GET" (Option.some "stream/items/ids") true Option.none
      { params := p } m
  | _, _, _ =>
    (Except.error (PyErr.valueError "count, start_time, and stop_time must be valid integers."), m)

/-- Tool get_shared_entries. -/
def get_shared_entries (std : Stdlib) (env : Env) (count : IntOrStr)
    (m : Machine) : Except PyErr Decoded × Machine :=
  match pyInt count with
  | Option.none => (Except.error (PyErr.valueError "count must be a valid integer."), m)
  | Option.some c =>
    makeRequest std env "GET"
      (Option.some "reader/atom/user/-/state/com.google/broadcast") true
      Option.none { params := [("n", PVal.i c)] } m

/-- Tool set_tag_sharing: the one caller that supplies its own client
parameter. -/
def set_tag_sharing (std : Stdlib) (env : Env) (tag_name : String)
    (is_public : Bool) (m : Machine) : Except PyErr Decoded × Machine :=
  makeRequest std env "POST" (Option.some "tag/edit") true Option.none
    { data := [("s", PVal.s ("user/-/label/" ++ tag_name)), ("t", PVal.s tag_name),
               ("pub", PVal.s (pyBoolStr is_public))],
      params := [("client", PVal.s "settings")] } m

/-- State invariant tying the three session artifacts together: an auth
secret only ever appears after a SID was stored, and a truthy token only
after an auth secret was stored. -/
def stInv (s : ClientState) : Prop :=
  (s.auth.isSome = true → s.sid.isSome = true)
    ∧ (isTruthyStr s.token = true → s.auth.isSome = true)

/-- Client states reachable from a fresh client by running operations:
every exposed tool changes client state only through makeRequest, with an
arbitrary transport stream and trace. -/
inductive ReachableSt (std : Stdlib) (env : Env) : ClientState → Prop where
  | fresh : ReachableSt std env freshState
  | step : ∀ s w tr method endpoint useApi0 fullUrl args,
      ReachableSt std env s →
      ReachableSt std env
        ((makeRequest std env method endpoint useApi0 fullUrl args ⟨s, w, tr⟩).2.st)

/-- Reading of the login extraction in which the session identifier is the
ENTIRE value after the first equals sign of the first SID line; written
from the spec words, to be compared with the source extraction. -/
def specSidEntireAfterEq (body : String) : Option String :=
  (firstStarting "SID=" (loginLines body)).map (fun l => String.mk (l.toList.drop 4))

/-- Same spec-words reading for the Auth line. -/
def specAuthEntireAfterEq (body : String) : Option String :=
  (firstStarting "Auth=" (loginLines body)).map (fun l => String.mk (l.toList.drop 5))

/-- Body classification as the spec words it: the already-unescaped body
is decoded by declared content type, falling back to the raw text. -/
def classifySpec (std : Stdlib) (contentType body : String) : Decoded :=
  if pyIn "json" contentType then
    match std.jsonLoads body with
    | Option.some v => Decoded.json v
    | Option.none => Decoded.text body
  else if pyIn "xml" contentType then
    match std.xmlFromString body with
    | Option.some t => Decoded.xml t
    | Option.none => Decoded.text body
  else Decoded.text body

/-- Response interpretation as the spec words it: unescape first, then
classify. -/
def specInterpretResponse (std : Stdlib) (r : HttpResponse) : Decoded :=
  classifySpec std (headersGetD r.headers "Content-Type" "") (std.unescape r.text)

/-- Does a result carry the endpoint-naming wrapped request failure? -/
def isWrappedRequestError : Except PyErr Decoded → Bool
  | Except.error (PyErr.requestError _) => true
  | _ => false

/-- Concrete environment used by witnesses and counterexamples. -/
def cEnv : Env :=
  ⟨"user@example.com", "pw", "http://reader.example"⟩

/-- Concrete stdlib instance used by witnesses and counterexamples: an
identity unescape and parsers that succeed only on a fixed token. -/
def cStd : Stdlib :=
  ⟨id,
    fun s => if s = "[1]" then Option.some ⟨"[1]"⟩ else Option.none,
    fun s => if s = "<a/>" then Option.some ⟨"<a/>"⟩ else Option.none⟩

/-- A client state that has completed authentication. -/
def cAuthedState : ClientState :=
  ⟨Option.some "s1", Option.some "a1", Option.some "tok1"⟩

/-- Error response carrying the bad-token signal header. -/
def cBadTokenResp : HttpResponse :=
  ⟨false, "", [("X-Reader-Google-Bad-Token", "true")]⟩

/-- Error response without the signal header. -/
def cPlainErrorResp : HttpResponse :=
  ⟨false, "boom", []⟩

/-- Successful token-endpoint response. -/
def cTokenResp : HttpResponse :=
  ⟨true, "tok2\n", []⟩

/-- The decorated request make_request builds for a default-prefix
endpoint out of client state and caller kwargs. -/
def apiReq (env : Env) (method ep : String) (s : ClientState) (args : CallArgs) :
    SentRequest :=
  ⟨method, pyRstripSlash env.baseUrl ++ "/reader/api/0/" ++ ep,
    decorateHeaders s args.headers, decorateCookies s args.cookies,
    decorateParams s args.params, args.data⟩

/-- Client machine state reached after the first successful
ensure-authenticated run in the C4 scenario. -/
def afterFirstEnsure (env : Env) (sidLine authLine : String)
    (rT : HttpResponse) (wrest : List TransportResult) : Machine :=
  ⟨⟨Option.some (eqField1 sidLine), Option.some (eqField1 authLine),
      Option.some (pyStrip rT.text)⟩,
    wrest,
    [loginReq env, tokenReq env (Option.some (eqField1 authLine))]⟩

/-!  Theorems.  -/

/-- Claim C5: for every successful response the raw body is first
HTML-entity-unescaped and only then classified by the declared content
type: a type containing json attempts a JSON decode with raw-text
fallback on failure, one containing xml attempts an XML parse with the
same fallback, and anything else returns the unescaped text unchanged;
interpretation is total, so a malformed body never fails the call. -/
theorem interpret_unescapes_then_classifies (std : Stdlib) (r : HttpResponse) :
    interpretResponse std r = specInterpretResponse std r := rfl

/-- Claim C3 counterexample: _login run on a body whose SID value itself
contains an equals sign stores only the segment before it, not the entire
value after the first equals sign that the claim describes. -/
theorem login_sid_truncated_counterexample :
    (loginRun cEnv
        ⟨freshState, [TransportResult.resp ⟨true, "SID=a=b\nAuth=x", []⟩], []⟩).2.st.sid
        = Option.some "a"
      ∧ specSidEntireAfterEq "SID=a=b\nAuth=x" = Option.some "a=b"
      ∧ (Option.some "a" : Option String) ≠ Option.some "a=b" :=
  ⟨rfl, rfl, by decide⟩

/-- Claim C3 (amended): on a successful login _login stores, for the first
line beginning SID= and the first line beginning Auth=, the segment of
the line between its first and second equals sign (the entire remainder
only when the value contains no further equals sign), regardless of line
order and with extra lines ignored; in particular SID=abc123 and
Auth=xyz789 yield abc123 and xyz789. -/
theorem login_stores_first_equals_field (env : Env) (m : Machine)
    (r : HttpResponse) (rest : List TransportResult)
    (hw : m.world = TransportResult.resp r :: rest) (hok : r.ok = true)
    (hrun : (loginRun env m).1 = Except.ok ()) :
    (loginRun env m).2.st.sid = loginSidOf r.text
      ∧ (loginRun env m).2.st.auth = loginAuthOf r.text
      ∧ loginSidOf "SID=abc123\nAuth=xyz789" = Option.some "abc123"
      ∧ loginAuthOf "SID=abc123\nAuth=xyz789" = Option.some "xyz789"
      ∧ loginSidOf "junk\nAuth=xyz789\nmore\nSID=abc123" = Option.some "abc123"
      ∧ loginAuthOf "Auth=xyz789\nSID=abc123" = Option.some "xyz789" := by
  refine ⟨?_, ?_, rfl, rfl, rfl, rfl⟩ <;>
  · unfold loginRun httpCall at hrun ⊢
    rw [hw] at hrun ⊢
    simp only [hok, if_true] at hrun ⊢
    cases hsid : firstStarting "SID=" (loginLines r.text) with
    | none => simp [hsid] at hrun
    | some sidLine =>
      cases hauth : firstStarting "Auth=" (loginLines r.text) with
      | none => simp [hsid, hauth] at hrun
      | some authLine =>
        simp [hsid, hauth, loginSidOf, loginAuthOf]

/-- Witness for the amended C3 at the concrete body from the claim. -/
theorem login_stores_first_equals_field_witness :
    (loginRun cEnv
        ⟨freshState,
          [TransportResult.resp ⟨true, "SID=abc123\nAuth=xyz789", []⟩], []⟩).2.st.sid
        = loginSidOf "SID=abc123\nAuth=xyz789"
      ∧ (loginRun cEnv
          ⟨freshState,
            [TransportResult.resp ⟨true, "SID=abc123\nAuth=xyz789", []⟩], []⟩).2.st.auth
        = loginAuthOf "SID=abc123\nAuth=xyz789"
      ∧ loginSidOf "SID=abc123\nAuth=xyz789" = Option.some "abc123"
      ∧ loginAuthOf "SID=abc123\nAuth=xyz789" = Option.some "xyz789"
      ∧ loginSidOf "junk\nAuth=xyz789\nmore\nSID=abc123" = Option.some "abc123"
      ∧ loginAuthOf "Auth=xyz789\nSID=abc123" = Option.some "xyz789" :=
  login_stores_first_equals_field cEnv
    ⟨freshState, [TransportResult.resp ⟨true, "SID=abc123\nAuth=xyz789", []⟩], []⟩
    ⟨true, "SID=abc123\nAuth=xyz789", []⟩ [] rfl rfl rfl

/-- Claim C8: a login response that is successful at the transport level
but contains neither a SID= line nor an Auth= line fails with the parse
error, and the client state (session identifier, auth secret, token) is
completely unchanged. -/
theorem login_parse_failure_preserves_state (env : Env) (m : Machine)
    (r : HttpResponse) (rest : List TransportResult)
    (hw : m.world = TransportResult.resp r :: rest) (hok : r.ok = true)
    (hsid : firstStarting "SID=" (loginLines r.text) = Option.none)
    (_hauth : firstStarting "Auth=" (loginLines r.text) = Option.none) :
    (loginRun env m).1 = Except.error (PyErr.loginParse r.text)
      ∧ (loginRun env m).2.st = m.st := by
  unfold loginRun httpCall
  rw [hw]
  simp [hok, hsid]

/-- Witness for C8 at a concrete machine. -/
theorem login_parse_failure_preserves_state_witness :
    (loginRun cEnv ⟨freshState, [TransportResult.resp ⟨true, "no lines here", []⟩], []⟩).1
        = Except.error (PyErr.loginParse "no lines here")
      ∧ (loginRun cEnv
          ⟨freshState, [TransportResult.resp ⟨true, "no lines here", []⟩], []⟩).2.st
        = freshState :=
  login_parse_failure_preserves_state cEnv
    ⟨freshState, [TransportResult.resp ⟨true, "no lines here", []⟩], []⟩
    ⟨true, "no lines here", []⟩ [] rfl rfl rfl rfl

/-- Claim C9: a zero time-window argument is dropped by the truthiness
check, so the call is identical to the call with the argument omitted, in
get_all_entries (newer_than, older_than) and in
freshapi_get_stream_item_ids (start_time, stop_time). -/
theorem zero_time_filters_dropped (std : Stdlib) (env : Env) (count : IntOrStr)
    (so xt c ft : Option String) (other : Option IntOrStr) (fmt sid : String)
    (m : Machine) :
    (get_all_entries std env count so (Option.some (IntOrStr.i 0)) other xt c fmt m
        = get_all_entries std env count so Option.none other xt c fmt m)
      ∧ (get_all_entries std env count so other (Option.some (IntOrStr.i 0)) xt c fmt m
        = get_all_entries std env count so other Option.none xt c fmt m)
      ∧ (freshapi_get_stream_item_ids std env sid count so c xt
            (Option.some (IntOrStr.i 0)) other ft m
        = freshapi_get_stream_item_ids std env sid count so c xt
            Option.none other ft m)
      ∧ (freshapi_get_stream_item_ids std env sid count so c xt other
            (Option.some (IntOrStr.i 0)) ft m
        = freshapi_get_stream_item_ids std env sid count so c xt other
            Option.none ft m) := by
  refine ⟨?_, ?_, ?_, ?_⟩
  · unfold get_all_entries
    cases hc : pyInt count <;> cases ho : convOpt other <;> rfl
  · unfold get_all_entries
    cases hc : pyInt count <;> cases ho : convOpt other <;> rfl
  · unfold freshapi_get_stream_item_ids
    cases hc : pyInt count <;> cases ho : convOpt other <;> rfl
  · unfold freshapi_get_stream_item_ids
    cases hc : pyInt count <;> cases ho : convOpt other <;> rfl

/-- Claim C10: a whitespace-only token body caches the empty-string token;
the truthiness check then treats it as absent, so every later
ensure-authenticated run performs the token exchange again instead of
doing nothing. -/
theorem empty_token_treated_as_absent (env : Env) (s : ClientState)
    (w : List TransportResult) (tr : List SentRequest) (rT : HttpResponse)
    (rest : List TransportResult)
    (hauth : isTruthyStr s.auth = true)
    (hw : w = TransportResult.resp rT :: rest) (hok : rT.ok = true)
    (hempty : pyStrip rT.text = "") :
    getTokenRun env ⟨s, w, tr⟩
        = (Except.ok (),
            ⟨{ s with token := Option.some "" }, rest, tr ++ [tokenReq env s.auth]⟩)
      ∧ (∀ m2 : Machine, m2.st.token = Option.some "" →
          ensureAuthRun env m2 = getTokenRun env m2) := by
  constructor
  · unfold getTokenRun httpCall
    rw [hw]
    simp [hauth, hok, hempty]
  · intro m2 h2
    unfold ensureAuthRun
    simp [isTruthyStr, h2]

/-- Witness for C10 at a concrete machine. -/
theorem empty_token_treated_as_absent_witness :
    getTokenRun cEnv
        ⟨⟨Option.some "s1", Option.some "a1", Option.none⟩,
          [TransportResult.resp ⟨true, "  \n", []⟩], []⟩
        = (Except.ok (),
            ⟨⟨Option.some "s1", Option.some "a1", Option.some ""⟩, [],
              [tokenReq cEnv (Option.some "a1")]⟩)
      ∧ (∀ m2 : Machine, m2.st.token = Option.some "" →
          ensureAuthRun cEnv m2 = getTokenRun cEnv m2) :=
  empty_token_treated_as_absent cEnv
    ⟨Option.some "s1", Option.some "a1", Option.none⟩
    [TransportResult.resp ⟨true, "  \n", []⟩] []
    ⟨true, "  \n", []⟩ [] (by decide) rfl rfl (by decide)

/-- Claim C7: a non-numeric string supplied for an integer-typed argument
raises the ValueError before any authentication or HTTP request: each
operation returns with the machine (client state, transport stream,
trace) untouched. -/
theorem nonnumeric_string_rejected_before_network (std : Stdlib) (env : Env)
    (m : Machine) (bad : String) (hbad : pyIntCore bad = Option.none)
    (u fmt name sid : String) (so xt c ft : Option String)
    (other other2 : Option IntOrStr) :
    mark_feed_as_read std env u (IntOrStr.s bad) m
        = (Except.error (PyErr.valueError "Timestamp must be a valid integer."), m)
      ∧ mark_folder_as_read std env name (IntOrStr.s bad) m
        = (Except.error (PyErr.valueError "Timestamp must be a valid integer."), m)
      ∧ get_all_entries std env (IntOrStr.s bad) so other other2 xt c fmt m
        = (Except.error
            (PyErr.valueError "count, newer_than, and older_than must be valid integers."), m)
      ∧ get_starred_articles std env (IntOrStr.s bad) fmt m
        = (Except.error (PyErr.valueError "count must be a valid integer."), m)
      ∧ parse_feed_url std env u (IntOrStr.s bad) xt m
        = (Except.error (PyErr.valueError "count must be a valid integer."), m)
      ∧ freshapi_get_stream_item_ids std env sid (IntOrStr.s bad) so c xt other other2 ft m
        = (Except.error
            (PyErr.valueError "count, start_time, and stop_time must be valid integers."), m)
      ∧ get_shared_entries std env (IntOrStr.s bad) m
        = (Except.error (PyErr.valueError "count must be a valid integer."), m) := by
  unfold mark_feed_as_read mark_folder_as_read get_all_entries get_starred_articles
    parse_feed_url freshapi_get_stream_item_ids get_shared_entries
  simp [pyInt, hbad]

/-- Witness for C7 at the concrete non-numeric string abc. -/
theorem nonnumeric_string_rejected_before_network_witness :
    mark_feed_as_read cStd cEnv "f" (IntOrStr.s "abc") ⟨freshState, [], []⟩
        = (Except.error (PyErr.valueError "Timestamp must be a valid integer."),
            ⟨freshState, [], []⟩)
      ∧ mark_folder_as_read cStd cEnv "dir" (IntOrStr.s "abc") ⟨freshState, [], []⟩
        = (Except.error (PyErr.valueError "Timestamp must be a valid integer."),
            ⟨freshState, [], []⟩)
      ∧ get_all_entries cStd cEnv (IntOrStr.s "abc") Option.none Option.none Option.none
            Option.none Option.none "json" ⟨freshState, [], []⟩
        = (Except.error
            (PyErr.valueError "count, newer_than, and older_than must be valid integers."),
            ⟨freshState, [], []⟩)
      ∧ get_starred_articles cStd cEnv (IntOrStr.s "abc") "json" ⟨freshState, [], []⟩
        = (Except.error (PyErr.valueError "count must be a valid integer."),
            ⟨freshState, [], []⟩)
      ∧ parse_feed_url cStd cEnv "f" (IntOrStr.s "abc") Option.none ⟨freshState, [], []⟩
        = (Except.error (PyErr.valueError "count must be a valid integer."),
            ⟨freshState, [], []⟩)
      ∧ freshapi_get_stream_item_ids cStd cEnv "feed/5" (IntOrStr.s "abc") Option.none
            Option.none Option.none Option.none Option.none Option.none ⟨freshState, [], []⟩
        = (Except.error
            (PyErr.valueError "count, start_time, and stop_time must be valid integers."),
            ⟨freshState, [], []⟩)
      ∧ get_shared_entries cStd cEnv (IntOrStr.s "abc") ⟨freshState, [], []⟩
        = (Except.error (PyErr.valueError "count must be a valid integer."),
            ⟨freshState, [], []⟩) :=
  nonnumeric_string_rejected_before_network cStd cEnv ⟨freshState, [], []⟩ "abc"
    (by decide) "f" "json" "dir" "feed/5" Option.none Option.none Option.none Option.none
    Option.none Option.none

/-!  Dictionary lemmas for the decoration claims.  -/

theorem find?_map_update {α : Type} (d : List (String × α)) (k : String) (v : α)
    (h : d.any (fun p => p.1 == k) = true) :
    (d.map (fun p => if p.1 == k then (k, v) else p)).find? (fun p => p.1 == k)
      = Option.some (k, v) := by
  induction d with
  | nil => simp at h
  | cons p rest ih =>
    by_cases hp : (p.1 == k) = true
    · rw [List.map_cons, if_pos hp]
      exact List.find?_cons_of_pos _ (by simp)
    · have hr : rest.any (fun p => p.1 == k) = true := by
        rw [List.any_cons] at h
        simpa [hp] using h
      rw [List.map_cons, if_neg hp, List.find?_cons_of_neg _ (by simpa using hp)]
      exact ih hr

theorem find?_map_update_other {α : Type} (d : List (String × α)) (k k2 : String)
    (v : α) (h : k ≠ k2) :
    (d.map (fun p => if p.1 == k then (k, v) else p)).find? (fun p => p.1 == k2)
      = d.find? (fun p => p.1 == k2) := by
  induction d with
  | nil => rfl
  | cons p rest ih =>
    by_cases hp : (p.1 == k) = true
    · have hk : p.1 = k := by simpa [beq_iff_eq] using hp
      have h2 : ((k, v).1 == k2) = false := by simpa [beq_iff_eq] using h
      have h3 : (p.1 == k2) = false := by
        rw [hk]
        simpa [beq_iff_eq] using h
      rw [List.map_cons, if_pos hp, List.find?_cons_of_neg _ (by simp [h2]),
        List.find?_cons_of_neg _ (by simp [h3])]
      exact ih
    · rw [List.map_cons, if_neg hp]
      cases hq : (p.1 == k2) with
      | true =>
        rw [@List.find?_cons_of_pos _ (fun q => q.1 == k2) p _ hq,
          @List.find?_cons_of_pos _ (fun q => q.1 == k2) p _ hq]
      | false =>
        rw [List.find?_cons_of_neg _ (by simp [hq]),
          List.find?_cons_of_neg _ (by simp [hq])]
        exact ih

theorem any_false_find?_none {α : Type} (d : List (String × α)) (k : String)
    (h : d.any (fun p => p.1 == k) = false) :
    d.find? (fun p => p.1 == k) = Option.none := by
  induction d with
  | nil => rfl
  | cons p rest ih =>
    rw [List.any_cons] at h
    cases hq : (p.1 == k) with
    | true => rw [hq] at h; simp at h
    | false =>
      have hr : rest.any (fun p => p.1 == k) = false := by
        rw [hq] at h
        simpa using h
      rw [List.find?_cons_of_neg _ (by simp [hq])]
      exact ih hr

theorem dictGet_set_self {α : Type} (d : List (String × α)) (k : String) (v : α) :
    dictGet? (dictSet d k v) k = Option.some v := by
  unfold dictSet dictGet?
  by_cases h : d.any (fun p => p.1 == k) = true
  · rw [if_pos h, find?_map_update d k v h]
    rfl
  · have h2 : d.any (fun p => p.1 == k) = false := Bool.eq_false_iff.mpr h
    rw [if_neg (by simp [h2]), List.find?_append, any_false_find?_none d k h2,
      List.find?_cons_of_pos _ (by simp)]
    rfl

theorem dictGet_set_other {α : Type} (d : List (String × α)) (k k2 : String)
    (v : α) (h : k ≠ k2) :
    dictGet? (dictSet d k v) k2 = dictGet? d k2 := by
  unfold dictSet dictGet?
  by_cases ha : d.any (fun p => p.1 == k) = true
  · rw [if_pos ha, find?_map_update_other d k k2 v h]
  · have h2 : d.any (fun p => p.1 == k) = false := Bool.eq_false_iff.mpr ha
    have hk2 : ((k, v).1 == k2) = false := by simpa [beq_iff_eq] using h
    rw [if_neg (by simp [h2]), List.find?_append]
    rw [List.find?_cons_of_neg _ (by simp [hk2]), List.find?_nil]
    cases hf : d.find? (fun p => p.1 == k2) <;> rfl

theorem dictSetdefault_of_has {α : Type} (d : List (String × α)) (k : String)
    (v : α) (h : dictHas d k = true) :
    dictSetdefault d k v = d := by
  unfold dictSetdefault
  unfold dictHas at h
  simp [h]

theorem dictGet_setdefault_absent {α : Type} (d : List (String × α)) (k : String)
    (v : α) (h : dictHas d k = false) :
    dictGet? (dictSetdefault d k v) k = Option.some v := by
  unfold dictSetdefault dictGet?
  unfold dictHas at h
  rw [if_neg (by simp [h]), List.find?_append, any_false_find?_none d k h,
    List.find?_cons_of_pos _ (by simp)]
  rfl

theorem dictGet_setdefault_other {α : Type} (d : List (String × α)) (k k2 : String)
    (v : α) (h : k ≠ k2) :
    dictGet? (dictSetdefault d k v) k2 = dictGet? d k2 := by
  unfold dictSetdefault dictGet?
  by_cases ha : d.any (fun p => p.1 == k) = true
  · rw [if_pos ha]
  · have h2 : d.any (fun p => p.1 == k) = false := Bool.eq_false_iff.mpr ha
    have hk2 : ((k, v).1 == k2) = false := by simpa [beq_iff_eq] using h
    rw [if_neg (by simp [h2]), List.find?_append]
    rw [List.find?_cons_of_neg _ (by simp [hk2]), List.find?_nil]
    cases hf : d.find? (fun p => p.1 == k2) <;> rfl

/-- Claim C2 counterexample: the client parameter is injected with
setdefault, so a caller-supplied client is NOT overridden: set_tag_sharing
passes client=settings and the outbound request still carries settings,
not the fixed identifier the claim says is always forced. -/
theorem client_param_not_forced_counterexample :
    dictGet? (decorateParams cAuthedState [("client", PVal.s "settings")]) "client"
        = Option.some (PVal.s "settings")
      ∧ Option.some (PVal.s "settings") ≠ Option.some (PVal.s "fastmcp-server")
      ∧ ((set_tag_sharing cStd cEnv "news" true
            ⟨cAuthedState, [TransportResult.resp ⟨true, "OK", []⟩], []⟩).2.sent.map
          (fun r => dictGet? r.params "client"))
        = [Option.some (PVal.s "settings")] :=
  ⟨rfl, by decide, rfl⟩

/-- Claim C2 (amended): make_request sends the request decorated by
decorateHeaders, decorateCookies and decorateParams; the Authorization
header, the SID cookie and the T parameter are always forced over any
caller-supplied entry of the same name, the fixed client identifier is
injected only when the caller supplied no client parameter (a
caller-supplied client is preserved), and every other caller-supplied
header, cookie and parameter is passed through unchanged. -/
theorem decoration_semantics (st : ClientState) (hs : List (String × String))
    (cs ps : List (String × PVal)) :
    dictGet? (decorateHeaders st hs) "Authorization"
        = Option.some ("GoogleLogin auth=" ++ pyStr st.auth)
      ∧ dictGet? (decorateCookies st cs) "SID" = Option.some (optPVal st.sid)
      ∧ dictGet? (decorateParams st ps) "T" = Option.some (optPVal st.token)
      ∧ (dictHas ps "client" = false →
          dictGet? (decorateParams st ps) "client"
            = Option.some (PVal.s "fastmcp-server"))
      ∧ (dictHas ps "client" = true →
          dictGet? (decorateParams st ps) "client" = dictGet? ps "client")
      ∧ (∀ k, k ≠ "Authorization" →
          dictGet? (decorateHeaders st hs) k = dictGet? hs k)
      ∧ (∀ k, k ≠ "SID" → dictGet? (decorateCookies st cs) k = dictGet? cs k)
      ∧ (∀ k, k ≠ "T" → k ≠ "client" →
          dictGet? (decorateParams st ps) k = dictGet? ps k)
      ∧ (∀ env method ep args s2 w tr r rest,
          isTruthyStr s2.token = true → (ep : String) ≠ "" →
          (w : List TransportResult) = TransportResult.resp r :: rest →
          (r : HttpResponse).ok = true →
          (makeRequest (Stdlib.mk id (fun _ => Option.none) (fun _ => Option.none))
              env method (Option.some ep) true Option.none args
              ⟨s2, w, tr⟩).2.sent
            = tr ++ [apiReq env method ep s2 args]) := by
  refine ⟨?_, ?_, ?_, ?_, ?_, ?_, ?_, ?_, ?_⟩
  · unfold decorateHeaders
    exact dictGet_set_self hs "Authorization" _
  · unfold decorateCookies
    exact dictGet_set_self cs "SID" _
  · unfold decorateParams
    rw [dictGet_setdefault_other _ "client" "T" _ (by decide)]
    exact dictGet_set_self ps "T" _
  · intro h
    unfold decorateParams
    have h2 : dictHas (dictSet ps "T" (optPVal st.token)) "client" = false := by
      unfold dictHas at h ⊢
      unfold dictSet
      by_cases ha : ps.any (fun p => p.1 == "T") = true
      · rw [if_pos ha]
        rw [List.any_map]
        refine (List.any_eq_false).2 ?_
        intro p hp
        have := (List.any_eq_false).1 h p hp
        by_cases hT : (p.1 == "T") = true
        · simp [Function.comp, hT]
        · simpa [Function.comp, hT] using this
      · have ha2 : ps.any (fun p => p.1 == "T") = false := Bool.eq_false_iff.mpr ha
        rw [if_neg (by simp [ha2]), List.any_append, h]
        simp
    exact dictGet_setdefault_absent _ "client" _ h2
  · intro h
    unfold decorateParams
    have h2 : dictHas (dictSet ps "T" (optPVal st.token)) "client" = true := by
      unfold dictHas at h ⊢
      unfold dictSet
      by_cases ha : ps.any (fun p => p.1 == "T") = true
      · rw [if_pos ha, List.any_map]
        rcases (List.any_eq_true).1 h with ⟨p, hp, hpk⟩
        refine (List.any_eq_true).2 ⟨p, hp, ?_⟩
        have hT : (p.1 == "T") = false := by
          have : p.1 = "client" := by simpa [beq_iff_eq] using hpk
          rw [this]
          decide
        simpa [Function.comp, hT] using hpk
      · have ha2 : ps.any (fun p => p.1 == "T") = false := Bool.eq_false_iff.mpr ha
        rw [if_neg (by simp [ha2]), List.any_append, h]
        simp
    rw [dictSetdefault_of_has _ "client" _ h2]
    exact dictGet_set_other ps "T" "client" _ (by decide)
  · intro k hk
    unfold decorateHeaders
    exact dictGet_set_other hs "Authorization" k _ (fun he => hk he.symm)
  · intro k hk
    unfold decorateCookies
    exact dictGet_set_other cs "SID" k _ (fun he => hk he.symm)
  · intro k hkT hkC
    unfold decorateParams
    rw [dictGet_setdefault_other _ "client" k _ (fun he => hkC he.symm)]
    exact dictGet_set_other ps "T" k _ (fun he => hkT he.symm)
  · intro env method ep args s2 w tr r rest htok hep hw hok
    subst hw
    have hens : ensureAuthRun env ⟨s2, TransportResult.resp r :: rest, tr⟩
        = (Except.ok (), ⟨s2, TransportResult.resp r :: rest, tr⟩) := by
      unfold ensureAuthRun
      rw [if_pos htok]
    unfold makeRequest resolveUrl httpCall apiReq
    rw [hens]
    simp [isTruthyStr, bne_iff_ne, hep, hok]

/-- Witness for the amended C2 at concrete caller dictionaries: a caller
Authorization header is overridden, a caller client parameter is kept,
and an unrelated parameter passes through. -/
theorem decoration_semantics_witness :
    dictGet? (decorateHeaders cAuthedState [("Authorization", "caller"), ("H", "1")])
        "Authorization"
        = Option.some ("GoogleLogin auth=" ++ pyStr cAuthedState.auth)
      ∧ dictGet?
          (decorateParams cAuthedState [("client", PVal.s "settings"), ("x", PVal.s "1")])
          "client"
        = dictGet? [("client", PVal.s "settings"), ("x", PVal.s "1")] "client"
      ∧ dictGet?
          (decorateParams cAuthedState [("client", PVal.s "settings"), ("x", PVal.s "1")])
          "x"
        = dictGet? [("client", PVal.s "settings"), ("x", PVal.s "1")] "x"
      ∧ (makeRequest (Stdlib.mk id (fun _ => Option.none) (fun _ => Option.none))
            cEnv "GET" (Option.some "user-info") true Option.none
            ⟨[], [], [], []⟩
            ⟨cAuthedState, [TransportResult.resp ⟨true, "hi", []⟩], []⟩).2.sent
        = [apiReq cEnv "GET" "user-info" cAuthedState ⟨[], [], [], []⟩] :=
  ⟨(decoration_semantics cAuthedState [("Authorization", "caller"), ("H", "1")] []
      [("client", PVal.s "settings"), ("x", PVal.s "1")]).1,
    (decoration_semantics cAuthedState [("Authorization", "caller"), ("H", "1")] []
      [("client", PVal.s "settings"), ("x", PVal.s "1")]).2.2.2.2.1 rfl,
    (decoration_semantics cAuthedState [("Authorization", "caller"), ("H", "1")] []
      [("client", PVal.s "settings"), ("x", PVal.s "1")]).2.2.2.2.2.2.2.1 "x"
      (by decide) (by decide),
    (decoration_semantics cAuthedState [] [] []).2.2.2.2.2.2.2.2 cEnv "GET" "user-info"
      ⟨[], [], [], []⟩ cAuthedState [TransportResult.resp ⟨true, "hi", []⟩] []
      ⟨true, "hi", []⟩ [] (by decide) (by decide) rfl rfl⟩

/-- Claim C4: ensure_authenticated with a cached (truthy) token does
nothing; from a fresh client a successful first run issues exactly one
login call and one token call, and the second run is a no-op on the
entire machine (no further login or token request). -/
theorem ensure_authenticated_idempotent (env : Env) (w : List TransportResult)
    (rL rT : HttpResponse) (wrest : List TransportResult) (sidLine authLine : String)
    (hw : w = TransportResult.resp rL :: TransportResult.resp rT :: wrest)
    (hokL : rL.ok = true)
    (hsid : firstStarting "SID=" (loginLines rL.text) = Option.some sidLine)
    (hauth : firstStarting "Auth=" (loginLines rL.text) = Option.some authLine)
    (hokT : rT.ok = true) (hne : pyStrip rT.text ≠ "") :
    ensureAuthRun env ⟨freshState, w, []⟩
        = (Except.ok (), afterFirstEnsure env sidLine authLine rT wrest)
      ∧ (afterFirstEnsure env sidLine authLine rT wrest).sent.map (fun r => r.url)
        = [env.baseUrl ++ "/accounts/ClientLogin", env.baseUrl ++ "/reader/api/0/token"]
      ∧ ensureAuthRun env (afterFirstEnsure env sidLine authLine rT wrest)
        = (Except.ok (), afterFirstEnsure env sidLine authLine rT wrest)
      ∧ (∀ m : Machine, isTruthyStr m.st.token = true →
          ensureAuthRun env m = (Except.ok (), m)) := by
  refine ⟨?_, ?_, ?_, ?_⟩
  · subst hw
    unfold ensureAuthRun getTokenRun loginRun httpCall afterFirstEnsure
    simp [freshState, isTruthyStr, hokL, hsid, hauth, hokT, loginReq, tokenReq]
  · unfold afterFirstEnsure
    simp [loginReq, tokenReq]
  · unfold ensureAuthRun afterFirstEnsure
    rw [if_pos (by simpa [isTruthyStr, bne_iff_ne] using hne)]
  · intro m hm
    unfold ensureAuthRun
    rw [if_pos hm]

/-- Witness for C4 at a concrete login and token exchange. -/
theorem ensure_authenticated_idempotent_witness :
    ensureAuthRun cEnv
        ⟨freshState,
          [TransportResult.resp ⟨true, "SID=s1\nAuth=a1", []⟩,
            TransportResult.resp ⟨true, "tok1", []⟩], []⟩
        = (Except.ok (),
            afterFirstEnsure cEnv "SID=s1" "Auth=a1" ⟨true, "tok1", []⟩ [])
      ∧ (afterFirstEnsure cEnv "SID=s1" "Auth=a1" ⟨true, "tok1", []⟩ []).sent.map
          (fun r => r.url)
        = [cEnv.baseUrl ++ "/accounts/ClientLogin", cEnv.baseUrl ++ "/reader/api/0/token"]
      ∧ ensureAuthRun cEnv (afterFirstEnsure cEnv "SID=s1" "Auth=a1" ⟨true, "tok1", []⟩ [])
        = (Except.ok (), afterFirstEnsure cEnv "SID=s1" "Auth=a1" ⟨true, "tok1", []⟩ [])
      ∧ (∀ m : Machine, isTruthyStr m.st.token = true →
          ensureAuthRun cEnv m = (Except.ok (), m)) :=
  ensure_authenticated_idempotent cEnv
    [TransportResult.resp ⟨true, "SID=s1\nAuth=a1", []⟩,
      TransportResult.resp ⟨true, "tok1", []⟩]
    ⟨true, "SID=s1\nAuth=a1", []⟩ ⟨true, "tok1", []⟩ [] "SID=s1" "Auth=a1"
    rfl rfl (by decide) (by decide) rfl (by decide)

/-- Claim C1 counterexample: when the single resend also fails, the raised
error is the raw HTTP failure escaping the handler, which does not carry
the endpoint; the wrapped endpoint-naming RequestError the claim promises
for this case never appears, although the retry did run (three requests
were sent). -/
theorem resend_failure_error_shape_counterexample :
    (makeRequest cStd cEnv "GET" (Option.some "user-info") true Option.none
        ⟨[], [], [], []⟩
        ⟨cAuthedState,
          [TransportResult.resp cBadTokenResp, TransportResult.resp cTokenResp,
            TransportResult.resp cPlainErrorResp], []⟩).1
        = Except.error (PyErr.rawHttp cPlainErrorResp)
      ∧ isWrappedRequestError (Except.error (PyErr.rawHttp cPlainErrorResp)) = false
      ∧ (makeRequest cStd cEnv "GET" (Option.some "user-info") true Option.none
          ⟨[], [], [], []⟩
          ⟨cAuthedState,
            [TransportResult.resp cBadTokenResp, TransportResult.resp cTokenResp,
              TransportResult.resp cPlainErrorResp], []⟩).2.sent.length = 3 :=
  ⟨rfl, rfl, rfl⟩

/-- Claim C1 (amended): for an authenticated call (cached truthy token and
auth secret), an HTTP error status triggers the retry path exactly when
the response carries X-Reader-Google-Bad-Token true: the pipeline then
performs one token exchange only (no login call appears in the trace),
resends the same request once with only the T parameter refreshed, and
never retries again; when the header is absent or the transport failed
with no response, the call fails with the RequestError carrying the
endpoint after the single attempt, but when the one resend itself fails
the error escapes raw (it does not carry the endpoint). -/
theorem retry_gated_on_bad_token_header (std : Stdlib) (env : Env)
    (method ep : String) (args : CallArgs) (s : ClientState)
    (w : List TransportResult) (tr : List SentRequest)
    (htok : isTruthyStr s.token = true) (hauth : isTruthyStr s.auth = true)
    (hep : ep ≠ "") :
    (∀ r rest, w = TransportResult.resp r :: rest → r.ok = true →
        makeRequest std env method (Option.some ep) true Option.none args ⟨s, w, tr⟩
          = (Except.ok (interpretResponse std r),
              ⟨s, rest, tr ++ [apiReq env method ep s args]⟩))
      ∧ (∀ rest, w = TransportResult.noResponse :: rest →
          makeRequest std env method (Option.some ep) true Option.none args ⟨s, w, tr⟩
            = (Except.error (PyErr.requestError (Option.some ep)),
                ⟨s, rest, tr ++ [apiReq env method ep s args]⟩))
      ∧ (∀ r rest, w = TransportResult.resp r :: rest → r.ok = false →
          headersGet? r.headers "X-Reader-Google-Bad-Token" ≠ Option.some "true" →
          makeRequest std env method (Option.some ep) true Option.none args ⟨s, w, tr⟩
            = (Except.error (PyErr.requestError (Option.some ep)),
                ⟨s, rest, tr ++ [apiReq env method ep s args]⟩))
      ∧ (∀ r rT t2 rest,
          w = TransportResult.resp r :: TransportResult.resp rT :: t2 :: rest →
          r.ok = false →
          headersGet? r.headers "X-Reader-Google-Bad-Token" = Option.some "true" →
          rT.ok = true →
          makeRequest std env method (Option.some ep) true Option.none args ⟨s, w, tr⟩
            = (let s2 : ClientState := { s with token := Option.some (pyStrip rT.text) }
               let req2 : SentRequest :=
                 { apiReq env method ep s args with
                     params := dictSet (decorateParams s args.params) "T"
                       (PVal.s (pyStrip rT.text)) }
               let sent3 : List SentRequest :=
                 tr ++ [apiReq env method ep s args, tokenReq env s.auth, req2]
               match t2 with
               | TransportResult.noResponse =>
                 (Except.error PyErr.rawTransport, ⟨s2, rest, sent3⟩)
               | TransportResult.resp r2 =>
                 if r2.ok then (Except.ok (interpretResponse std r2), ⟨s2, rest, sent3⟩)
                 else (Except.error (PyErr.rawHttp r2), ⟨s2, rest, sent3⟩))) := by
  have hens : ∀ w2 : List TransportResult,
      ensureAuthRun env ⟨s, w2, tr⟩ = (Except.ok (), ⟨s, w2, tr⟩) := by
    intro w2
    unfold ensureAuthRun
    rw [if_pos htok]
  refine ⟨?_, ?_, ?_, ?_⟩
  · intro r rest hw hok
    subst hw
    unfold makeRequest resolveUrl httpCall apiReq
    rw [hens]
    simp [isTruthyStr, bne_iff_ne, hep, hok]
  · intro rest hw
    subst hw
    unfold makeRequest resolveUrl httpCall apiReq
    rw [hens]
    simp [isTruthyStr, bne_iff_ne, hep]
  · intro r rest hw hok hhdr
    subst hw
    unfold makeRequest resolveUrl httpCall apiReq
    rw [hens]
    simp [isTruthyStr, bne_iff_ne, hep, hok, beq_eq_false_iff_ne, hhdr]
  · intro r rT t2 rest hw hok hhdr hokT
    subst hw
    unfold makeRequest getTokenRun resolveUrl httpCall tokenReq apiReq
    rw [hens]
    simp only [isTruthyStr] at hauth
    simp [isTruthyStr, bne_iff_ne, hep, hok, hhdr, hauth, hokT, optPVal, httpCall]

/-- Witness for the amended C1: the concrete bad-token, refresh, resend
scenario, where the resend fails and the raw error surfaces after exactly
three sent requests. -/
theorem retry_gated_on_bad_token_header_witness :
    (makeRequest cStd cEnv "GET" (Option.some "user-info") true Option.none
        ⟨[], [], [], []⟩
        ⟨cAuthedState,
          [TransportResult.resp cBadTokenResp, TransportResult.resp cTokenResp,
            TransportResult.resp cPlainErrorResp], []⟩).1
        = Except.error (PyErr.rawHttp cPlainErrorResp)
      ∧ (makeRequest cStd cEnv "GET" (Option.some "user-info") true Option.none
          ⟨[], [], [], []⟩
          ⟨cAuthedState,
            [TransportResult.resp cBadTokenResp, TransportResult.resp cTokenResp,
              TransportResult.resp cPlainErrorResp], []⟩).2.st.token
        = Option.some "tok2"
      ∧ (makeRequest cStd cEnv "GET" (Option.some "user-info") true Option.none
          ⟨[], [], [], []⟩
          ⟨cAuthedState,
            [TransportResult.resp cBadTokenResp, TransportResult.resp cTokenResp,
              TransportResult.resp cPlainErrorResp], []⟩).2.sent.map (fun r => r.url)
        = [pyRstripSlash cEnv.baseUrl ++ "/reader/api/0/user-info",
            cEnv.baseUrl ++ "/reader/api/0/token",
            pyRstripSlash cEnv.baseUrl ++ "/reader/api/0/user-info"] := by
  have h := (retry_gated_on_bad_token_header cStd cEnv "GET" "user-info"
      ⟨[], [], [], []⟩ cAuthedState
      [TransportResult.resp cBadTokenResp, TransportResult.resp cTokenResp,
        TransportResult.resp cPlainErrorResp] []
      (by decide) (by decide) (by decide)).2.2.2 cBadTokenResp cTokenResp
      (TransportResult.resp cPlainErrorResp) [] rfl rfl rfl rfl
  rw [h]
  exact ⟨rfl, rfl, rfl⟩

/-!  Invariant chain for the lazily-established session artifacts.  -/

theorem isTruthyStr_isSome (o : Option String) (h : isTruthyStr o = true) :
    o.isSome = true := by
  cases o with
  | none => simp [isTruthyStr] at h
  | some s => rfl

theorem httpCall_st (m : Machine) (req : SentRequest) :
    (httpCall m req).2.st = m.st := by
  unfold httpCall
  cases m.world <;> rfl

theorem loginRun_inv (env : Env) (st : ClientState) (w : List TransportResult)
    (tr : List SentRequest) (h : stInv st) :
    stInv (loginRun env ⟨st, w, tr⟩).2.st
      ∧ ((loginRun env ⟨st, w, tr⟩).1 = Except.ok () →
          (loginRun env ⟨st, w, tr⟩).2.st.sid.isSome = true
            ∧ (loginRun env ⟨st, w, tr⟩).2.st.auth.isSome = true) := by
  obtain ⟨h1, h2⟩ := h
  unfold loginRun httpCall
  cases w with
  | nil => simp; exact ⟨h1, h2⟩
  | cons t w2 =>
    cases t with
    | noResponse => simp; exact ⟨h1, h2⟩
    | resp r =>
      cases hok : r.ok with
      | false => simp [hok]; exact ⟨h1, h2⟩
      | true =>
        cases hsid : firstStarting "SID=" (loginLines r.text) with
        | none => simp [hok, hsid]; exact ⟨h1, h2⟩
        | some sidLine =>
          cases hauthL : firstStarting "Auth=" (loginLines r.text) with
          | none => simp [hok, hsid, hauthL]; exact ⟨fun _ => rfl, fun ht => h2 ht⟩
          | some authLine =>
            simp [hok, hsid, hauthL]
            exact ⟨fun _ => rfl, fun _ => rfl⟩

theorem getTokenRun_inv (env : Env) (m : Machine) (h : stInv m.st) :
    stInv (getTokenRun env m).2.st
      ∧ ((getTokenRun env m).1 = Except.ok () →
          (getTokenRun env m).2.st.sid.isSome = true
            ∧ (getTokenRun env m).2.st.auth.isSome = true
            ∧ (getTokenRun env m).2.st.token.isSome = true) := by
  rcases m with ⟨st, w, tr⟩
  unfold getTokenRun httpCall
  cases hauth : isTruthyStr st.auth with
  | true =>
    have hS : st.auth.isSome = true := isTruthyStr_isSome _ hauth
    cases w with
    | nil => simp [hauth]; exact h
    | cons t w2 =>
      cases t with
      | noResponse => simp [hauth]; exact h
      | resp r =>
        cases hok : r.ok with
        | false => simp [hauth, hok]; exact h
        | true =>
          simp [hauth, hok]
          exact ⟨⟨fun _ => h.1 hS, fun _ => hS⟩, h.1 hS, hS⟩
  | false =>
    rcases hL : loginRun env ⟨st, w, tr⟩ with ⟨res, m1⟩
    have hLinv := loginRun_inv env st w tr h
    rw [hL] at hLinv
    cases res with
    | error e =>
      simp [hauth, hL]
      exact hLinv.1
    | ok a =>
      obtain ⟨hm1sid, hm1auth⟩ := hLinv.2 rfl
      rcases m1 with ⟨st1, w1, tr1⟩
      simp only [] at hm1sid hm1auth
      have hL1 : stInv st1 := hLinv.1
      cases w1 with
      | nil => simp [hauth, hL]; exact hL1
      | cons t2 w2 =>
        cases t2 with
        | noResponse => simp [hauth, hL]; exact hL1
        | resp r =>
          cases hok : r.ok with
          | false => simp [hauth, hL, hok]; exact hL1
          | true =>
            simp [hauth, hL, hok]
            exact ⟨⟨fun _ => hm1sid, fun _ => hm1auth⟩, hm1sid, hm1auth⟩

theorem ensureAuthRun_inv (env : Env) (m : Machine) (h : stInv m.st) :
    stInv (ensureAuthRun env m).2.st
      ∧ ((ensureAuthRun env m).1 = Except.ok () →
          (ensureAuthRun env m).2.st.sid.isSome = true
            ∧ (ensureAuthRun env m).2.st.auth.isSome = true
            ∧ (ensureAuthRun env m).2.st.token.isSome = true) := by
  rcases m with ⟨st, w, tr⟩
  unfold ensureAuthRun
  cases htok : isTruthyStr st.token with
  | true =>
    have hA := h.2 htok
    simp [htok]
    exact ⟨h, h.1 hA, hA, isTruthyStr_isSome _ htok⟩
  | false =>
    simp [htok]
    exact getTokenRun_inv env ⟨st, w, tr⟩ h

theorem makeRequest_inv (std : Stdlib) (env : Env) (method : String)
    (endpoint : Option String) (useApi0 : Bool) (fullUrl : Option String)
    (args : CallArgs) (m : Machine) (h : stInv m.st) :
    stInv (makeRequest std env method endpoint useApi0 fullUrl args m).2.st := by
  have hE := ensureAuthRun_inv env m h
  unfold makeRequest
  split
  next e m1 heq =>
    rw [heq] at hE
    exact hE.1
  next a m1 heq =>
    rw [heq] at hE
    have h1 : stInv m1.st := hE.1
    split
    next e2 _ => exact h1
    next url _ =>
      dsimp only
      generalize hC : httpCall m1
        ⟨method, url, decorateHeaders m1.st args.headers,
          decorateCookies m1.st args.cookies, decorateParams m1.st args.params,
          args.data⟩ = pr
      have hst2 : pr.2.st = m1.st := by rw [← hC, httpCall_st]
      rcases pr with ⟨t, m2⟩
      have h2 : stInv m2.st := by
        have : m2.st = m1.st := hst2
        rw [this]
        exact h1
      cases t with
      | noResponse => exact h2
      | resp r =>
        cases hok : r.ok with
        | true => simp [hok]; exact h2
        | false =>
          cases hbad : (headersGet? r.headers "X-Reader-Google-Bad-Token"
              == Option.some "true") with
          | false => simp [hok, hbad]; exact h2
          | true =>
            simp only [hok, hbad]
            rcases hG : getTokenRun env m2 with ⟨res3, m3⟩
            have hGi := getTokenRun_inv env m2 h2
            rw [hG] at hGi
            cases res3 with
            | error e3 => simp [hG]; exact hGi.1
            | ok a3 =>
              have h3 : stInv m3.st := hGi.1
              simp only [hG]
              generalize hC2 : httpCall m3
                ⟨method, url, decorateHeaders m1.st args.headers,
                  decorateCookies m1.st args.cookies,
                  dictSet (decorateParams m1.st args.params) "T" (optPVal m3.st.token),
                  args.data⟩ = pr2
              have hst4 : pr2.2.st = m3.st := by rw [← hC2, httpCall_st]
              rcases pr2 with ⟨t2, m4⟩
              have h4 : stInv m4.st := by
                have : m4.st = m3.st := hst4
                rw [this]
                exact h3
              cases t2 with
              | noResponse => exact h4
              | resp r2 =>
                cases hok2 : r2.ok with
                | true => simp [hok2]; exact h4
                | false => simp [hok2]; exact h4

theorem reachable_stInv (std : Stdlib) (env : Env) (s : ClientState)
    (h : ReachableSt std env s) : stInv s := by
  induction h with
  | fresh =>
    exact ⟨by intro hc; simp [freshState] at hc,
      by intro hc; simp [freshState, isTruthyStr] at hc⟩
  | step s2 w tr method endpoint useApi0 fullUrl args hs ih =>
    exact makeRequest_inv std env method endpoint useApi0 fullUrl args ⟨s2, w, tr⟩ ih

/-- Claim C6: from any reachable client state, make_request sends nothing
unless ensure_authenticated succeeds, and whenever it succeeds the
session identifier, auth secret and access token are all established
(non-absent) in the state used for the send. -/
theorem session_artifacts_before_send (std : Stdlib) (env : Env) (s : ClientState)
    (hs : ReachableSt std env s) (w : List TransportResult) (tr : List SentRequest) :
    (∀ m1 : Machine, ensureAuthRun env ⟨s, w, tr⟩ = (Except.ok (), m1) →
        m1.st.sid.isSome = true ∧ m1.st.auth.isSome = true
          ∧ m1.st.token.isSome = true)
      ∧ (∀ (e : PyErr) (m1 : Machine) method endpoint useApi0 fullUrl args,
          ensureAuthRun env ⟨s, w, tr⟩ = (Except.error e, m1) →
          makeRequest std env method endpoint useApi0 fullUrl args ⟨s, w, tr⟩
            = (Except.error e, m1)) := by
  have hinv : stInv s := reachable_stInv std env s hs
  constructor
  · intro m1 hE
    have h2 := ensureAuthRun_inv env ⟨s, w, tr⟩ hinv
    rw [hE] at h2
    exact h2.2 rfl
  · intro e m1 method endpoint useApi0 fullUrl args hE
    unfold makeRequest
    rw [hE]

/-- Witness for C6: a fresh client and a world where login and token
exchange succeed. -/
theorem session_artifacts_before_send_witness :
    (⟨⟨Option.some "s1", Option.some "a1", Option.some "tok1"⟩, [],
        [loginReq cEnv, tokenReq cEnv (Option.some "a1")]⟩ : Machine).st.sid.isSome = true
      ∧ (⟨⟨Option.some "s1", Option.some "a1", Option.some "tok1"⟩, [],
          [loginReq cEnv, tokenReq cEnv (Option.some "a1")]⟩ : Machine).st.auth.isSome = true
      ∧ (⟨⟨Option.some "s1", Option.some "a1", Option.some "tok1"⟩, [],
          [loginReq cEnv, tokenReq cEnv (Option.some "a1")]⟩ : Machine).st.token.isSome = true :=
  (session_artifacts_before_send cStd cEnv freshState ReachableSt.fresh
    [TransportResult.resp ⟨true, "SID=s1\nAuth=a1", []⟩,
      TransportResult.resp ⟨true, "tok1", []⟩] []).1
    ⟨⟨Option.some "s1", Option.some "a1", Option.some "tok1"⟩, [],
      [loginReq cEnv, tokenReq cEnv (Option.some "a1")]⟩ rfl

end RssMcp
